import Mathlib

/-!
Shallow embedding of the cached configuration store, text normalizer, flow
matcher and prompt-settings resolver of the chatbot repository
(src/sheets.js and src/ai-chat.js), together with proofs settling the
frozen claims about them.

Conventions of the embedding:
* JavaScript strings are Lean `String`s / `List Char` (Unicode scalar values).
* `null`/`undefined` cells become `Option`.
* Timestamps (`Date.now()`) are `Int` milliseconds; JS numbers that the code
  compares or stores for settings are modelled as `Rat` (all values reachable
  here are finite decimals).
* The external Google-Sheets calls are parameters: a `get` receives the
  outcome of `spreadsheets.values.get` as an `Except` value, a status update
  receives the outcome of `spreadsheets.values.update`.
* Character-level Unicode tables (`toLowerCase`, NFD decomposition) are
  modelled on the Basic Latin + Latin-1 repertoire that the sheets and the
  source comments use; outside that repertoire a character is left unchanged.
-/

namespace Chatbot

/-! ### Text normalizer (src/sheets.js, `normalizeText`, lines 56-63) -/

/-- The JavaScript whitespace class `\s` (also used by `String.prototype.trim`):
space, tab, line terminators, NBSP, and the Unicode space separators. -/
def isJsWhitespace (c : Char) : Bool :=
  let n := c.toNat
  n = 0x20 || (0x9 ≤ n && n ≤ 0xd) || n = 0xa0 || n = 0x1680 ||
    (0x2000 ≤ n && n ≤ 0x200a) || n = 0x2028 || n = 0x2029 || n = 0x202f ||
    n = 0x205f || n = 0x3000 || n = 0xfeff

/-- `String.prototype.toLowerCase`, restricted to Basic Latin and Latin-1:
`A`-`Z` and `À`-`Þ` (except `×`) shift down to their lowercase forms, every
other character is unchanged. -/
def jsToLowerChar (c : Char) : Char :=
  let n := c.toNat
  if 0x41 ≤ n && n ≤ 0x5a then Char.ofNat (n + 32)
  else if (0xc0 ≤ n && n ≤ 0xde) && n ≠ 0xd7 then Char.ofNat (n + 32)
  else c

/-- Canonical decomposition table for the precomposed Latin-1 letters:
code point of the composed character, code point of the base letter,
code point of the combining mark. -/
def nfdTable : List (Nat × Nat × Nat) :=
  [ (0xe1, 0x61, 0x301), (0xe9, 0x65, 0x301), (0xed, 0x69, 0x301),
    (0xf3, 0x6f, 0x301), (0xfa, 0x75, 0x301), (0xfd, 0x79, 0x301),
    (0xe0, 0x61, 0x300), (0xe8, 0x65, 0x300), (0xec, 0x69, 0x300),
    (0xf2, 0x6f, 0x300), (0xf9, 0x75, 0x300),
    (0xe4, 0x61, 0x308), (0xeb, 0x65, 0x308), (0xef, 0x69, 0x308),
    (0xf6, 0x6f, 0x308), (0xfc, 0x75, 0x308),
    (0xe2, 0x61, 0x302), (0xea, 0x65, 0x302), (0xee, 0x69, 0x302),
    (0xf4, 0x6f, 0x302), (0xfb, 0x75, 0x302),
    (0xe3, 0x61, 0x303), (0xf5, 0x6f, 0x303), (0xf1, 0x6e, 0x303),
    (0xe7, 0x63, 0x327),
    (0xc1, 0x41, 0x301), (0xc9, 0x45, 0x301), (0xcd, 0x49, 0x301),
    (0xd3, 0x4f, 0x301), (0xda, 0x55, 0x301), (0xd1, 0x4e, 0x303),
    (0xdc, 0x55, 0x308) ]

/-- `String.prototype.normalize("NFD")` on one character: a precomposed
Latin-1 letter splits into base letter plus combining mark, anything else is
already in NFD form. -/
def jsNFD (c : Char) : List Char :=
  match (nfdTable.find? (fun p => p.1 = c.toNat)).map Prod.snd with
  | some (b, m) => [Char.ofNat b, Char.ofNat m]
  | none => [c]

/-- The combining-mark block removed by `.replace(/[̀-ͯ]/g, "")`. -/
def isCombining0300 (c : Char) : Bool :=
  0x300 ≤ c.toNat && c.toNat ≤ 0x36f

/-- A character kept by `.replace(/[^a-z0-9\s]/g, "")`: lowercase ASCII
letter, ASCII digit, or whitespace. -/
def isKeptChar (c : Char) : Bool :=
  (0x61 ≤ c.toNat && c.toNat ≤ 0x7a) || (0x30 ≤ c.toNat && c.toNat ≤ 0x39) ||
    isJsWhitespace c

/-- `String.prototype.trim`: drop whitespace from both ends. -/
def jsTrimL (l : List Char) : List Char :=
  ((l.dropWhile isJsWhitespace).reverse.dropWhile isJsWhitespace).reverse

/-- The normalization pipeline of `normalizeText` on a character list:
lowercase, NFD-decompose, drop combining marks, drop everything that is not
a lowercase letter / digit / whitespace, trim. -/
def normalizeTextL (l : List Char) : List Char :=
  jsTrimL ((((l.map jsToLowerChar).flatMap jsNFD).filter
    (fun c => !isCombining0300 c)).filter isKeptChar)

/-- `normalizeText(text)` from src/sheets.js lines 56-63. -/
def normalizeText (s : String) : String :=
  String.mk (normalizeTextL s.data)

example : normalizeText "Hóla  Buenós!" = "hola  buenos" := by decide

example : normalizeText "  MENsaje 42 ñandú!  " = "mensaje 42 nandu" := by decide

/-! ### Flow records and the flow matcher (src/sheets.js, `findFlowAnswer`,
lines 70-107) -/

/-- One parsed row of the `Flujos` sheet: `flow[header] = row[index] || null`,
so a missing or empty cell becomes `none`. -/
structure Flow where
  addKeyword : Option String
  addAnswer : Option String
  media : Option String
deriving DecidableEq, Repr

/-- The regex word class `\w`: ASCII letters, digits, underscore. -/
def jsIsWordChar (c : Char) : Bool :=
  let n := c.toNat
  (0x41 ≤ n && n ≤ 0x5a) || (0x61 ≤ n && n ≤ 0x7a) || (0x30 ≤ n && n ≤ 0x39) ||
    n = 0x5f

/-- Whether an optional character counts as a word character; out of the
string counts as non-word. -/
def wordAt (o : Option Char) : Bool :=
  match o with
  | some c => jsIsWordChar c
  | none => false

/-- The regex assertion `\b` at position `i` of `msg`: exactly one of the
neighbouring positions holds a word character. -/
def boundaryAt (msg : List Char) (i : Nat) : Bool :=
  wordAt (if i = 0 then none else msg.get? (i - 1)) != wordAt (msg.get? i)

/-- The fixed string `kw` occurs in `msg` starting at position `i`. -/
def matchesAt (kw msg : List Char) (i : Nat) : Bool :=
  (msg.drop i).take kw.length = kw

/-- The test `new RegExp(`\\b${keyword}\\b`, "i").test(msg)`: after
normalization the keyword is a literal of lowercase letters, digits and
whitespace, so the regex matches iff the keyword occurs somewhere in `msg`
with a word boundary on each side.  (The `i` flag is irrelevant: both sides
are already lowercase.) -/
def regexWordTest (kw msg : List Char) : Bool :=
  (List.range (msg.length + 1)).any fun i =>
    matchesAt kw msg i && boundaryAt msg i && boundaryAt msg (i + kw.length)

/-- `msg.includes(keyword)`: the keyword occurs somewhere in `msg`. -/
def jsIncludes (kw msg : List Char) : Bool :=
  (List.range (msg.length + 1)).any fun i => matchesAt kw msg i

/-- `rawKeywords.split(",")`: split a character list on commas; splitting the
empty string yields one empty group, as in JavaScript. -/
def splitOnCharL (sep : Char) : List Char → List (List Char)
  | [] => [[]]
  | c :: rest =>
      match splitOnCharL sep rest with
      | [] => [[]]
      | g :: gs => if c = sep then [] :: g :: gs else (c :: g) :: gs

/-- The three-tier test applied to one normalized keyword inside the loop of
`findFlowAnswer`: skip empty keywords, then exact equality, then whole-word
regex, then substring. -/
def keywordHits (msg kw : List Char) : Bool :=
  kw ≠ [] && (msg == kw || regexWordTest kw msg || jsIncludes kw msg)

/-- One iteration of the outer loop of `findFlowAnswer`: split
`flow.addKeyword || ""` on commas, normalize each keyword, and test whether
any keyword hits the (already normalized) message. -/
def flowMatches (msg : List Char) (flow : Flow) : Bool :=
  ((splitOnCharL ',' (flow.addKeyword.getD "").data).map normalizeTextL).any
    (fun k => keywordHits msg k)

/-- The outer loop of `findFlowAnswer` over the fetched flow table, with the
message already normalized: return the first flow a keyword of which hits. -/
def findFlowAnswerL (msg : List Char) : List Flow → Option Flow
  | [] => none
  | flow :: rest =>
      if flowMatches msg flow then some flow else findFlowAnswerL msg rest

/-- `findFlowAnswer(userMessage)` from src/sheets.js lines 70-107,
parameterized by the flow table that `getFlows()` returned. -/
def findFlowAnswer (userMessage : String) (flows : List Flow) : Option Flow :=
  findFlowAnswerL (normalizeTextL userMessage.data) flows

example :
    findFlowAnswer "hola buenos dias"
      [⟨some "hola", none, none⟩, ⟨some "hola buenos dias", none, none⟩] =
      some ⟨some "hola", none, none⟩ := by decide

example : regexWordTest "hola".data "holas".data = false := by decide
example : jsIncludes "hola".data "holas".data = true := by decide

/-! ### Settings objects (JavaScript object semantics)

`getPrompts` builds a plain JS object keyed by strings; `loadSettings` later
replaces some of its values by numbers.  A value is therefore a tagged
string-or-number, and the object is an insertion-ordered association list:
assigning to an existing key updates it in place, assigning to a new key
appends it. -/

/-- A JavaScript value stored in the settings object: a string cell or a
number produced by `Number(...)`. -/
inductive JSVal where
  | str : String → JSVal
  | num : Rat → JSVal
deriving DecidableEq, Repr

/-- A JS object with string keys: insertion-ordered association list. -/
abbrev Settings := List (String × JSVal)

/-- Property read `obj[k]`: the value at key `k`, if present. -/
def objGet (m : Settings) (k : String) : Option JSVal :=
  (m.find? (fun p => p.1 = k)).map Prod.snd

/-- Property write `obj[k] = v`: update in place if the key exists, else
append at the end. -/
def objSet (m : Settings) (k : String) (v : JSVal) : Settings :=
  if m.any (fun p => p.1 = k) then
    m.map (fun p => if p.1 = k then (k, v) else p)
  else
    m ++ [(k, v)]

/-! ### Row parsing (src/sheets.js) -/

/-- `row[index] || null` on a fetched row: a missing or empty cell is
`null`. -/
def cellOrNull (row : List String) (i : Nat) : Option String :=
  match row.get? i with
  | some s => if s = "" then none else some s
  | none => none

/-- Flow parsing in `getFlows` (lines 126-135): each row maps positionally to
`{addKeyword, addAnswer, media}`. -/
def parseFlows (rows : List (List String)) : List Flow :=
  rows.map (fun row => ⟨cellOrNull row 0, cellOrNull row 1, cellOrNull row 2⟩)

/-- One parsed row of the `Mensajes_Programados` sheet (lines 206-215):
`rowIndex = index + 2` plus six positional cells. -/
structure ScheduledMessage where
  rowIndex : Nat
  fecha : Option String
  hora : Option String
  phone : Option String
  addAnswer : Option String
  media : Option String
  estado : Option String
deriving DecidableEq, Repr

/-- Scheduled-message parsing in `getScheduledMessages`: positional cells
with `rowIndex` equal to the 0-based offset in the range plus 2. -/
def parseScheduledMessages (rows : List (List String)) :
    List ScheduledMessage :=
  (rows.enum).map (fun p =>
    let row := p.2
    { rowIndex := p.1 + 2
      fecha := cellOrNull row 0
      hora := cellOrNull row 1
      phone := cellOrNull row 2
      addAnswer := cellOrNull row 3
      media := cellOrNull row 4
      estado := cellOrNull row 5 })

/-- The seeding step of `getPrompts` (lines 167-169):
`if (rows.length > 0 && rows[0][0]) settings['system_prompt'] = rows[0][0]`
applied to the initially empty settings object. -/
def promptSeed (rows : List (List String)) : Settings :=
  match rows with
  | [] => []
  | r0 :: _ =>
      match r0.get? 0 with
      | some v => if v = "" then [] else objSet [] "system_prompt" (.str v)
      | none => []

/-- The body of the `rows.forEach` loop of `getPrompts` (lines 171-177):
`if (key && value) settings[key] = value` with `key = row[1]`,
`value = row[2]` (JS truthiness on strings and missing cells). -/
def promptRowAssign (acc : Settings) (row : List String) : Settings :=
  match row.get? 1, row.get? 2 with
  | some k, some v =>
      if k ≠ "" && v ≠ "" then objSet acc k (.str v) else acc
  | _, _ => acc

/-- Prompt parsing in `getPrompts` (lines 164-177): the first row's first
cell, when present and non-empty, seeds `system_prompt`; then `forEach` over
ALL fetched rows (the first included) assigns `settings[row[1]] = row[2]`
whenever both cells are present and non-empty. -/
def parsePrompts (rows : List (List String)) : Settings :=
  rows.foldl promptRowAssign (promptSeed rows)

/-- Specification-side view of one row's key/value contribution: the pair
`(row[1], row[2])` when both cells are present and non-empty. -/
def rowEntry (row : List String) : Option (String × String) :=
  match row.get? 1, row.get? 2 with
  | some k, some v => if k ≠ "" && v ≠ "" then some (k, v) else none
  | _, _ => none

/-- Specification-side view of last-write-wins: the value contributed for
key `k` by the LAST row of `rows` that carries an entry for `k`. -/
def lastValueFor (k : String) : List (List String) → Option String
  | [] => none
  | row :: rest =>
      match lastValueFor k rest with
      | some v => some v
      | none =>
          match rowEntry row with
          | some kv => if kv.1 = k then some kv.2 else none
          | none => none

/-! ### The cached configuration store (class `GoogleSheetService`)

The mutable fields of the singleton are a record; `Date.now()` is an `Int`
parameter `now`; the outcome of the external `spreadsheets.values.get` call
is an `Except` parameter whose success payload is `response.data.values`
(possibly absent, hence `Option`).  Each getter also reports whether it
invoked the external fetch. -/

/-- The cache fields initialized in the constructor (lines 37-44). -/
structure SheetState where
  flowsCache : Option (List Flow)
  promptsCache : Option Settings
  scheduledMessagesCache : Option (List ScheduledMessage)
  lastFlowsFetch : Int
  lastPromptsFetch : Int
  lastScheduledMessagesFetch : Int
deriving DecidableEq, Repr

/-- The freshly constructed service: caches `null`, timestamps `0`. -/
def SheetState.init : SheetState :=
  ⟨none, none, none, 0, 0, 0⟩

/-- `this.cacheDuration = 5 * 60 * 1000` in milliseconds. -/
def cacheDuration : Int := 5 * 60 * 1000

/-- Result of one getter call: the returned value, the state of the service
afterwards, and whether the external fetch was invoked. -/
structure GetResult (α : Type) where
  value : α
  state : SheetState
  invoked : Bool
deriving DecidableEq, Repr

/-- Outcome of one `spreadsheets.values.get` call: on success the rows of
`response.data.values` (absent when the range is empty, hence the
`|| []`), on failure the thrown error. -/
def FetchOutcome := Except Unit (Option (List (List String)))

/-- The cache-miss branch of `getFlows` (lines 119-144): fetch, parse, store
`(flows, now)` on success; on error log and return `[]` leaving the state
unchanged. -/
def getFlowsFetch (now : Int) (fetch : FetchOutcome) (s : SheetState) :
    GetResult (List Flow) :=
  match fetch with
  | .ok values =>
      let rows := values.getD []
      let flows := parseFlows rows
      ⟨flows, { s with flowsCache := some flows, lastFlowsFetch := now }, true⟩
  | .error _ => ⟨[], s, true⟩

/-- `getFlows()` (lines 112-145): serve the cache when it is non-null and
`now - lastFlowsFetch < cacheDuration`, otherwise fetch. -/
def getFlows (now : Int) (fetch : FetchOutcome) (s : SheetState) :
    GetResult (List Flow) :=
  match s.flowsCache with
  | some c =>
      if now - s.lastFlowsFetch < cacheDuration then ⟨c, s, false⟩
      else getFlowsFetch now fetch s
  | none => getFlowsFetch now fetch s

/-- The cache-miss branch of `getPrompts` (lines 157-186). -/
def getPromptsFetch (now : Int) (fetch : FetchOutcome) (s : SheetState) :
    GetResult Settings :=
  match fetch with
  | .ok values =>
      let rows := values.getD []
      let settings := parsePrompts rows
      ⟨settings,
        { s with promptsCache := some settings, lastPromptsFetch := now },
        true⟩
  | .error _ => ⟨[], s, true⟩

/-- `getPrompts()` (lines 150-187). -/
def getPrompts (now : Int) (fetch : FetchOutcome) (s : SheetState) :
    GetResult Settings :=
  match s.promptsCache with
  | some c =>
      if now - s.lastPromptsFetch < cacheDuration then ⟨c, s, false⟩
      else getPromptsFetch now fetch s
  | none => getPromptsFetch now fetch s

/-- The cache-miss branch of `getScheduledMessages` (lines 199-224). -/
def getScheduledMessagesFetch (now : Int) (fetch : FetchOutcome)
    (s : SheetState) : GetResult (List ScheduledMessage) :=
  match fetch with
  | .ok values =>
      let rows := values.getD []
      let msgs := parseScheduledMessages rows
      ⟨msgs,
        { s with scheduledMessagesCache := some msgs,
                 lastScheduledMessagesFetch := now },
        true⟩
  | .error _ => ⟨[], s, true⟩

/-- `getScheduledMessages()` (lines 192-225). -/
def getScheduledMessages (now : Int) (fetch : FetchOutcome) (s : SheetState) :
    GetResult (List ScheduledMessage) :=
  match s.scheduledMessagesCache with
  | some c =>
      if now - s.lastScheduledMessagesFetch < cacheDuration then ⟨c, s, false⟩
      else getScheduledMessagesFetch now fetch s
  | none => getScheduledMessagesFetch now fetch s

/-- Outcome of the external `spreadsheets.values.update` write. -/
def WriteOutcome := Except Unit Unit

/-- `updateMessageStatus(rowIndex, newStatus)` (lines 230-248): on a
successful write set `scheduledMessagesCache = null` and return `true`; on a
failed write log and return `false` leaving the state unchanged.  The row
index and new status only feed the external write. -/
def updateMessageStatus (write : WriteOutcome) (_rowIndex : Nat)
    (_newStatus : String) (s : SheetState) : Bool × SheetState :=
  match write with
  | .ok _ => (true, { s with scheduledMessagesCache := none })
  | .error _ => (false, s)

/-- `invalidateCache()` (lines 254-262): clear all three caches and reset the
timestamps. -/
def invalidateCache (_s : SheetState) : SheetState :=
  ⟨none, none, none, 0, 0, 0⟩

/-! ### JavaScript number conversion (`Number(string)` / `isNaN(string)`)

`loadSettings` in src/ai-chat.js runs `if (!isNaN(v)) v = Number(v)` on every
settings value.  `Number` on a string trims whitespace, maps the empty string
to `0`, and otherwise requires the whole remainder to be a decimal literal
(optional sign, digits with optional fraction and exponent) or an unsigned
`0x`/`0o`/`0b` radix literal; anything else is `NaN`.  The model returns
`Option Rat`; the non-finite results `Infinity`/`-Infinity` (not reachable
from the repository's sheets) are outside the model and treated as failures. -/

/-- ASCII decimal digit. -/
def isDigitC (c : Char) : Bool :=
  0x30 ≤ c.toNat && c.toNat ≤ 0x39

/-- Numeric value of a digit list, most significant first. -/
def natFromDigits (l : List Char) : Nat :=
  l.foldl (fun a c => a * 10 + (c.toNat - 0x30)) 0

/-- Parse a full exponent suffix (everything after `e`/`E`): an optional sign
followed by at least one digit, consuming the whole input. -/
def parseExp (l : List Char) : Option Int :=
  match l with
  | [] => none
  | c :: rest =>
      let p : Int × List Char :=
        if c = '+' then (1, rest)
        else if c = '-' then (-1, rest) else (1, c :: rest)
      if p.2 ≠ [] && p.2.all isDigitC then
        some (p.1 * (natFromDigits p.2 : Int))
      else none

/-- The rational value of a digit string scaled by a power-of-ten exponent:
`digits * 10 ^ e`. -/
def decValue (md : List Char) (e : Int) : Rat :=
  match e with
  | .ofNat n => mkRat (natFromDigits md * (10 : Nat) ^ n : Nat) 1
  | .negSucc n => mkRat (natFromDigits md) ((10 : Nat) ^ (n + 1))

/-- Parse an unsigned decimal literal occupying the whole input:
`digits`, `digits.`, `digits.digits`, `.digits`, each with an optional
`e`/`E` exponent. -/
def parseDecBody (l : List Char) : Option Rat :=
  let ip := l.takeWhile isDigitC
  let r1 := l.dropWhile isDigitC
  match r1 with
  | [] => if ip = [] then none else some (decValue ip 0)
  | '.' :: r2 =>
      let fp := r2.takeWhile isDigitC
      let r3 := r2.dropWhile isDigitC
      if ip = [] && fp = [] then none
      else
        match r3 with
        | [] => some (decValue (ip ++ fp) (-(fp.length : Int)))
        | c :: rest =>
            if c = 'e' || c = 'E' then
              (parseExp rest).map
                (fun k => decValue (ip ++ fp) (k - (fp.length : Int)))
            else none
  | c :: rest =>
      if c = 'e' || c = 'E' then
        if ip = [] then none
        else (parseExp rest).map (fun k => decValue ip k)
      else none

/-- Value of a hexadecimal digit. -/
def hexDigitVal (c : Char) : Option Nat :=
  let n := c.toNat
  if 0x30 ≤ n && n ≤ 0x39 then some (n - 0x30)
  else if 0x61 ≤ n && n ≤ 0x66 then some (n - 0x57)
  else if 0x41 ≤ n && n ≤ 0x46 then some (n - 0x37)
  else none

/-- Parse the digits of an unsigned `0x`/`0o`/`0b` literal in the given
radix, consuming the whole input. -/
def parseRadixBody (l : List Char) (radix : Nat) : Option Rat :=
  if l = [] then none
  else if l.all (fun c => match hexDigitVal c with
                          | some v => v < radix
                          | none => false) then
    some ((l.foldl (fun a c => a * radix + (hexDigitVal c).getD 0) 0 : Nat) : Rat)
  else none

/-- `Number(s)` for a string `s`, as a finite rational (`none` = `NaN`, with
the non-finite values outside the model). -/
def jsParseNumber (s : String) : Option Rat :=
  let l := jsTrimL s.data
  match l with
  | [] => some 0
  | '+' :: rest => parseDecBody rest
  | '-' :: rest => (parseDecBody rest).map Neg.neg
  | '0' :: c :: rest =>
      if c = 'x' || c = 'X' then parseRadixBody rest 16
      else if c = 'o' || c = 'O' then parseRadixBody rest 8
      else if c = 'b' || c = 'B' then parseRadixBody rest 2
      else parseDecBody l
  | _ => parseDecBody l

example : jsParseNumber "42" = some 42 := by decide
example : jsParseNumber "3.5" = some (mkRat 7 2) := by decide
example : jsParseNumber "abc" = none := by decide
example : jsParseNumber "" = some 0 := by decide
example : jsParseNumber " 0x1f " = some 31 := by decide
example : jsParseNumber "-2e3" = some (-2000) := by decide

/-! ### The Groq service (src/ai-chat.js, class `GroqService`) -/

/-- The body of the `for (const key in settings)` loop of `loadSettings`
(lines 26-30) on one value: `if (!isNaN(v)) v = Number(v)`.  `isNaN` is false
exactly when `Number` yields a non-`NaN` result, so a string that parses is
replaced by its number and a number stays itself. -/
def coerceVal (v : JSVal) : JSVal :=
  match v with
  | .str s =>
      match jsParseNumber s with
      | some q => .num q
      | none => .str s
  | .num q => .num q

/-- The whole coercion loop of `loadSettings`: every entry's value is
coerced, keys and order unchanged. -/
def coerceSettings (m : Settings) : Settings :=
  m.map (fun p => (p.1, coerceVal p.2))

/-- The combined mutable state of the two singletons: the sheet service's
cache fields and `GroqService.settings` (`null` until `loadSettings` ran). -/
structure SysState where
  sheet : SheetState
  groqSettings : Option Settings
deriving DecidableEq, Repr

/-- `loadSettings()` (src/ai-chat.js lines 23-32): fetch the settings object
from `getPrompts()`, coerce numeric-looking values IN PLACE, and store the
object in `this.settings`.

The in-place `settings[key] = Number(...)` writes through to
`promptsCache`: on a cache hit and on a successful refresh the object
returned by `getPrompts` IS the cached object.  The embedding performs the
write-back exactly when the returned value is the cached one; in the error
branch `getPrompts` returns a fresh empty object, and a coerced empty object
equals the empty object, so the equation test is extensionally faithful to
the reference aliasing. -/
def loadSettings (now : Int) (fetch : FetchOutcome) (st : SysState) :
    SysState :=
  let r := getPrompts now fetch st.sheet
  let coerced := coerceSettings r.value
  let sheet2 :=
    if r.state.promptsCache = some r.value then
      { r.state with promptsCache := some coerced }
    else r.state
  { sheet := sheet2, groqSettings := some coerced }

/-- One chat message handed to the completion API. -/
structure ChatMessage where
  role : String
  content : String
deriving DecidableEq, Repr

/-- `this.settings.system_prompt || 'Eres un asistente útil.'` (line 49):
a missing, empty-string or zero value falls back to the default.  (A numeric
prompt would be interpolated by JS; its decimal rendering is approximated by
`toString` on the rational, which no claim depends on.) -/
def systemPromptOf (settings : Settings) : String :=
  match objGet settings "system_prompt" with
  | some (.str s) => if s = "" then "Eres un asistente útil." else s
  | some (.num q) => if q = 0 then "Eres un asistente útil." else toString q
  | none => "Eres un asistente útil."

/-- `getResponse(userInput, phoneNumber)` (src/ai-chat.js lines 40-78).
`generate` stands for the Groq completion endpoint
(`generate(messages) -> text`), `contextMessages` for
`chatHistoryService.getContextForAI(phoneNumber)`.  The source loads the
settings when `this.settings` is null, assembles the `messages` array
(system prompt, optional history context, user input) — and then, at line
66, sets `const aiResponse = ''` WITHOUT ever calling the completion
endpoint, and returns that empty string (the history side effects write to
an external collaborator and do not touch this state). -/
def getResponse (now : Int) (fetch : FetchOutcome)
    (generate : List ChatMessage → String) (userInput : String)
    (phoneNumber : Option String) (contextMessages : List ChatMessage)
    (st : SysState) : String × SysState :=
  let st1 := if st.groqSettings.isSome then st else loadSettings now fetch st
  let settings := st1.groqSettings.getD []
  let _messages : List ChatMessage :=
    ⟨"system", systemPromptOf settings⟩ ::
      ((if phoneNumber.isSome then contextMessages else []) ++
        [⟨"user", userInput⟩])
  let _unusedEndpoint := generate
  let aiResponse := ""
  (aiResponse, st1)

/-! ### Helper lemmas: trimming -/

theorem dropWhile_dropWhile (p : Char → Bool) (l : List Char) :
    (l.dropWhile p).dropWhile p = l.dropWhile p := by
  induction l with
  | nil => rfl
  | cons a t ih =>
      cases h : p a <;> simp [List.dropWhile_cons, h, ih]

theorem length_dropWhile_le (p : Char → Bool) (l : List Char) :
    (l.dropWhile p).length ≤ l.length := by
  induction l with
  | nil => simp
  | cons a t ih =>
      cases h : p a
      · simp [List.dropWhile_cons, h]
      · rw [List.dropWhile_cons, if_pos h]
        simp only [List.length_cons]
        omega

theorem dropWhile_append_self {p : Char → Bool} {x y : List Char}
    (h : (x ++ y).dropWhile p = x ++ y) : x.dropWhile p = x := by
  cases x with
  | nil => rfl
  | cons a x' =>
      rw [List.cons_append, List.dropWhile_cons] at h
      cases hp : p a with
      | true =>
          exfalso
          rw [hp, if_pos rfl] at h
          have hlen := length_dropWhile_le p (x' ++ y)
          rw [h] at hlen
          simp at hlen
      | false =>
          simp [List.dropWhile_cons, hp]

theorem jsTrimL_idem (l : List Char) : jsTrimL (jsTrimL l) = jsTrimL l := by
  have hA : (l.dropWhile isJsWhitespace).dropWhile isJsWhitespace =
      l.dropWhile isJsWhitespace := dropWhile_dropWhile _ l
  have hsuf : ∃ s, s ++ ((l.dropWhile isJsWhitespace).reverse.dropWhile
      isJsWhitespace) = (l.dropWhile isJsWhitespace).reverse :=
    List.dropWhile_suffix isJsWhitespace
  obtain ⟨s, hs⟩ := hsuf
  have hpre : jsTrimL l ++ s.reverse = l.dropWhile isJsWhitespace := by
    have := congrArg List.reverse hs
    simpa [jsTrimL] using this
  have hB : (jsTrimL l).dropWhile isJsWhitespace = jsTrimL l := by
    apply dropWhile_append_self (y := s.reverse)
    rw [hpre]
    exact hA
  show ((((jsTrimL l).dropWhile isJsWhitespace).reverse).dropWhile
      isJsWhitespace).reverse = jsTrimL l
  rw [hB]
  have hrev : (jsTrimL l).reverse =
      (l.dropWhile isJsWhitespace).reverse.dropWhile isJsWhitespace := by
    simp [jsTrimL]
  rw [hrev, dropWhile_dropWhile, ← hrev, List.reverse_reverse]

theorem mem_jsTrimL {c : Char} {l : List Char} (h : c ∈ jsTrimL l) : c ∈ l := by
  unfold jsTrimL at h
  rw [List.mem_reverse] at h
  have h1 := (List.dropWhile_suffix isJsWhitespace).sublist.subset h
  rw [List.mem_reverse] at h1
  exact (List.dropWhile_suffix isJsWhitespace).sublist.subset h1

/-! ### Helper lemmas: characters already in normalized form are fixed by
every stage of the pipeline -/

theorem kept_toLower {c : Char} (h : isKeptChar c = true) :
    jsToLowerChar c = c := by
  simp only [isKeptChar, isJsWhitespace, Bool.or_eq_true, Bool.and_eq_true,
    decide_eq_true_eq] at h
  simp only [jsToLowerChar]
  rw [if_neg, if_neg]
  · simp only [Bool.and_eq_true, Bool.not_eq_true, decide_eq_true_eq, ne_eq,
      decide_eq_false_iff_not]
    omega
  · simp only [Bool.and_eq_true, Bool.not_eq_true, decide_eq_true_eq]
    omega

theorem kept_nfd {c : Char} (h : isKeptChar c = true) : jsNFD c = [c] := by
  have hn : nfdTable.find? (fun p => p.1 = c.toNat) = none := by
    rw [List.find?_eq_none]
    intro x hx
    simp only [isKeptChar, isJsWhitespace, Bool.or_eq_true, Bool.and_eq_true,
      decide_eq_true_eq] at h
    fin_cases hx <;> simp <;> omega
  simp [jsNFD, hn]

theorem kept_not_combining {c : Char} (h : isKeptChar c = true) :
    isCombining0300 c = false := by
  simp only [isKeptChar, isJsWhitespace, Bool.or_eq_true, Bool.and_eq_true,
    decide_eq_true_eq] at h
  simp only [isCombining0300, Bool.and_eq_false_iff, decide_eq_false_iff_not]
  omega

theorem map_lower_of_kept {m : List Char}
    (h : ∀ c ∈ m, isKeptChar c = true) : m.map jsToLowerChar = m := by
  induction m with
  | nil => rfl
  | cons a t ih =>
      rw [List.map_cons, kept_toLower (h a (by simp)),
        ih (fun c hc => h c (by simp [hc]))]

theorem flatMap_nfd_of_kept {m : List Char}
    (h : ∀ c ∈ m, isKeptChar c = true) : m.flatMap jsNFD = m := by
  induction m with
  | nil => rfl
  | cons a t ih =>
      rw [List.flatMap_cons, kept_nfd (h a (by simp)),
        ih (fun c hc => h c (by simp [hc]))]
      rfl

theorem mem_normalizeTextL_kept {c : Char} {l : List Char}
    (h : c ∈ normalizeTextL l) : isKeptChar c = true := by
  unfold normalizeTextL at h
  exact (List.mem_filter.mp (mem_jsTrimL h)).2

theorem normalizeTextL_idem (l : List Char) :
    normalizeTextL (normalizeTextL l) = normalizeTextL l := by
  have hmem : ∀ c ∈ normalizeTextL l, isKeptChar c = true :=
    fun c hc => mem_normalizeTextL_kept hc
  have h1 : (normalizeTextL l).map jsToLowerChar = normalizeTextL l :=
    map_lower_of_kept hmem
  have h2 : (normalizeTextL l).flatMap jsNFD = normalizeTextL l :=
    flatMap_nfd_of_kept hmem
  have h3 : (normalizeTextL l).filter (fun c => !isCombining0300 c) =
      normalizeTextL l :=
    List.filter_eq_self.mpr
      (fun c hc => by rw [kept_not_combining (hmem c hc)]; rfl)
  have h4 : (normalizeTextL l).filter isKeptChar = normalizeTextL l :=
    List.filter_eq_self.mpr hmem
  conv_lhs => rw [normalizeTextL, h1, h2, h3, h4]
  conv_lhs => rw [normalizeTextL]
  exact jsTrimL_idem _

/-! ### Claim theorems: the normalizer (C6, C9) -/

/-- C6, counterexample: the normalizer does NOT map `"Hóla  Buenós!"` to the
single-spaced string `"hola buenos"` — no pipeline stage collapses interior
whitespace. -/
theorem c6_counterexample : normalizeText "Hóla  Buenós!" ≠ "hola buenos" := by
  decide

/-- C6 (amended): the text normalizer maps `"Hóla  Buenós!"` (two spaces
between the words) to exactly `"hola  buenos"`, with the two interior spaces
preserved: accents and the symbol are dropped and letters lowercased, but
interior whitespace is not collapsed. -/
theorem c6_normalizer_example :
    normalizeText "Hóla  Buenós!" = "hola  buenos" := by
  decide

/-- C9: the text normalizer is idempotent — for every input string,
normalizing twice equals normalizing once. -/
theorem c9_normalize_idempotent (x : String) :
    normalizeText (normalizeText x) = normalizeText x := by
  unfold normalizeText
  exact congrArg String.mk (normalizeTextL_idem x.data)

/-! ### Claim theorems: the TTL caches (C1, C2, C3) -/

/-- C1: for each of the three cached resources, with a value stored at time
`T = last*Fetch`, a `get()` strictly before `T + cacheDuration` returns the
stored value, changes nothing, and does not invoke the external fetch
(whatever its outcome would have been); a `get()` at `T + cacheDuration` or
later does invoke it.  The freshness test `now - fetchedAt < ttl` is strict,
so staleness starts exactly at `T + cacheDuration`. -/
theorem c1_ttl_cache (s : SheetState) (vF : List Flow) (vP : Settings)
    (vM : List ScheduledMessage) (now : Int) (fetch : FetchOutcome)
    (hF : s.flowsCache = some vF) (hP : s.promptsCache = some vP)
    (hM : s.scheduledMessagesCache = some vM) :
    (now < s.lastFlowsFetch + cacheDuration →
      getFlows now fetch s = ⟨vF, s, false⟩) ∧
    (s.lastFlowsFetch + cacheDuration ≤ now →
      (getFlows now fetch s).invoked = true) ∧
    (now < s.lastPromptsFetch + cacheDuration →
      getPrompts now fetch s = ⟨vP, s, false⟩) ∧
    (s.lastPromptsFetch + cacheDuration ≤ now →
      (getPrompts now fetch s).invoked = true) ∧
    (now < s.lastScheduledMessagesFetch + cacheDuration →
      getScheduledMessages now fetch s = ⟨vM, s, false⟩) ∧
    (s.lastScheduledMessagesFetch + cacheDuration ≤ now →
      (getScheduledMessages now fetch s).invoked = true) := by
  refine ⟨fun h => ?_, fun h => ?_, fun h => ?_, fun h => ?_, fun h => ?_,
    fun h => ?_⟩
  · simp only [getFlows, hF]
    rw [if_pos (by omega)]
  · simp only [getFlows, hF]
    rw [if_neg (by omega)]
    cases fetch <;> simp [getFlowsFetch]
  · simp only [getPrompts, hP]
    rw [if_pos (by omega)]
  · simp only [getPrompts, hP]
    rw [if_neg (by omega)]
    cases fetch <;> simp [getPromptsFetch]
  · simp only [getScheduledMessages, hM]
    rw [if_pos (by omega)]
  · simp only [getScheduledMessages, hM]
    rw [if_neg (by omega)]
    cases fetch <;> simp [getScheduledMessagesFetch]

/-- Witness for C1 at a concrete state: all three caches populated at time 0,
queried at time 1 (fresh) — each hypothesis is discharged by `rfl`. -/
theorem c1_ttl_cache_witness :
    (1 < (0 : Int) + cacheDuration →
      getFlows 1 (.error ())
        ⟨some [⟨some "hola", none, none⟩], some [("a", .str "1")], some [],
          0, 0, 0⟩ =
        ⟨[⟨some "hola", none, none⟩],
          ⟨some [⟨some "hola", none, none⟩], some [("a", .str "1")], some [],
            0, 0, 0⟩, false⟩) ∧
    ((0 : Int) + cacheDuration ≤ 1 →
      (getFlows 1 (.error ())
        ⟨some [⟨some "hola", none, none⟩], some [("a", .str "1")], some [],
          0, 0, 0⟩).invoked = true) ∧
    (1 < (0 : Int) + cacheDuration →
      getPrompts 1 (.error ())
        ⟨some [⟨some "hola", none, none⟩], some [("a", .str "1")], some [],
          0, 0, 0⟩ =
        ⟨[("a", .str "1")],
          ⟨some [⟨some "hola", none, none⟩], some [("a", .str "1")], some [],
            0, 0, 0⟩, false⟩) ∧
    ((0 : Int) + cacheDuration ≤ 1 →
      (getPrompts 1 (.error ())
        ⟨some [⟨some "hola", none, none⟩], some [("a", .str "1")], some [],
          0, 0, 0⟩).invoked = true) ∧
    (1 < (0 : Int) + cacheDuration →
      getScheduledMessages 1 (.error ())
        ⟨some [⟨some "hola", none, none⟩], some [("a", .str "1")], some [],
          0, 0, 0⟩ =
        ⟨[],
          ⟨some [⟨some "hola", none, none⟩], some [("a", .str "1")], some [],
            0, 0, 0⟩, false⟩) ∧
    ((0 : Int) + cacheDuration ≤ 1 →
      (getScheduledMessages 1 (.error ())
        ⟨some [⟨some "hola", none, none⟩], some [("a", .str "1")], some [],
          0, 0, 0⟩).invoked = true) :=
  c1_ttl_cache
    ⟨some [⟨some "hola", none, none⟩], some [("a", .str "1")], some [], 0, 0, 0⟩
    [⟨some "hola", none, none⟩] [("a", .str "1")] [] 1 (.error ())
    rfl rfl rfl

/-- C2: when a `get()` misses (here: all three timestamps are stale, so the
external fetch IS invoked) and the external call throws, each getter catches
the failure, leaves the whole state — cached values and fetch timestamps —
unchanged, and returns the resource's empty fallback: `[]` for flows and
scheduled messages, the empty mapping for prompts.  The getters are total
functions, so the failure is never re-thrown. -/
theorem c2_fetch_failure_isolation (s : SheetState) (now : Int)
    (hF : s.lastFlowsFetch + cacheDuration ≤ now)
    (hP : s.lastPromptsFetch + cacheDuration ≤ now)
    (hM : s.lastScheduledMessagesFetch + cacheDuration ≤ now) :
    getFlows now (.error ()) s = ⟨[], s, true⟩ ∧
    getPrompts now (.error ()) s = ⟨[], s, true⟩ ∧
    getScheduledMessages now (.error ()) s = ⟨[], s, true⟩ := by
  refine ⟨?_, ?_, ?_⟩
  · cases hc : s.flowsCache with
    | none => simp [getFlows, hc, getFlowsFetch]
    | some c =>
        simp only [getFlows, hc]
        rw [if_neg (by omega)]
        rfl
  · cases hc : s.promptsCache with
    | none => simp [getPrompts, hc, getPromptsFetch]
    | some c =>
        simp only [getPrompts, hc]
        rw [if_neg (by omega)]
        rfl
  · cases hc : s.scheduledMessagesCache with
    | none => simp [getScheduledMessages, hc, getScheduledMessagesFetch]
    | some c =>
        simp only [getScheduledMessages, hc]
        rw [if_neg (by omega)]
        rfl

/-- Witness for C2 at a concrete stale state (caches populated at time 0,
queried at exactly `cacheDuration`): each getter returns its empty fallback
with every cached value and timestamp intact. -/
theorem c2_fetch_failure_isolation_witness :
    getFlows cacheDuration (.error ())
      ⟨some [⟨some "hola", none, none⟩], some [("a", .str "1")], some [],
        0, 0, 0⟩ =
      ⟨[], ⟨some [⟨some "hola", none, none⟩], some [("a", .str "1")], some [],
        0, 0, 0⟩, true⟩ ∧
    getPrompts cacheDuration (.error ())
      ⟨some [⟨some "hola", none, none⟩], some [("a", .str "1")], some [],
        0, 0, 0⟩ =
      ⟨[], ⟨some [⟨some "hola", none, none⟩], some [("a", .str "1")], some [],
        0, 0, 0⟩, true⟩ ∧
    getScheduledMessages cacheDuration (.error ())
      ⟨some [⟨some "hola", none, none⟩], some [("a", .str "1")], some [],
        0, 0, 0⟩ =
      ⟨[], ⟨some [⟨some "hola", none, none⟩], some [("a", .str "1")], some [],
        0, 0, 0⟩, true⟩ :=
  c2_fetch_failure_isolation
    ⟨some [⟨some "hola", none, none⟩], some [("a", .str "1")], some [], 0, 0, 0⟩
    cacheDuration (by decide) (by decide) (by decide)

/-- C3: `updateMessageStatus` returns `true` and clears exactly the
scheduled-messages cache when the external write succeeds, returns `false`
and changes nothing when it fails; in both cases the flows and prompts caches
and their timestamps are untouched, and a flows `get()` that is still fresh
after a successful update returns the previously cached flows unchanged
without fetching. -/
theorem c3_update_targeted_invalidation (s : SheetState) (r : Nat)
    (newStatus : String) (w : WriteOutcome) (v : List Flow) (now : Int)
    (fetch : FetchOutcome) (hF : s.flowsCache = some v)
    (hfresh : now < s.lastFlowsFetch + cacheDuration) :
    updateMessageStatus (.ok ()) r newStatus s =
      (true, { s with scheduledMessagesCache := none }) ∧
    updateMessageStatus (.error ()) r newStatus s = (false, s) ∧
    (updateMessageStatus w r newStatus s).2.flowsCache = s.flowsCache ∧
    (updateMessageStatus w r newStatus s).2.promptsCache = s.promptsCache ∧
    (updateMessageStatus w r newStatus s).2.lastFlowsFetch =
      s.lastFlowsFetch ∧
    (updateMessageStatus w r newStatus s).2.lastPromptsFetch =
      s.lastPromptsFetch ∧
    getFlows now fetch (updateMessageStatus (.ok ()) r newStatus s).2 =
      ⟨v, (updateMessageStatus (.ok ()) r newStatus s).2, false⟩ := by
  refine ⟨rfl, rfl, ?_, ?_, ?_, ?_, ?_⟩
  · cases w <;> rfl
  · cases w <;> rfl
  · cases w <;> rfl
  · cases w <;> rfl
  · simp only [updateMessageStatus, getFlows, hF]
    rw [if_pos (by omega)]

/-- Witness for C3 at a concrete state: flows cached at time 0, update
performed, flows re-read at time 1. -/
theorem c3_update_targeted_invalidation_witness :
    updateMessageStatus (.ok ()) 2 "Enviado"
      ⟨some [⟨some "hola", none, none⟩], some [("a", .str "1")],
        some [⟨2, none, none, none, none, none, none⟩], 0, 0, 0⟩ =
      (true, ⟨some [⟨some "hola", none, none⟩], some [("a", .str "1")],
        none, 0, 0, 0⟩) ∧
    updateMessageStatus (.error ()) 2 "Enviado"
      ⟨some [⟨some "hola", none, none⟩], some [("a", .str "1")],
        some [⟨2, none, none, none, none, none, none⟩], 0, 0, 0⟩ =
      (false, ⟨some [⟨some "hola", none, none⟩], some [("a", .str "1")],
        some [⟨2, none, none, none, none, none, none⟩], 0, 0, 0⟩) ∧
    (updateMessageStatus (.ok ()) 2 "Enviado"
      ⟨some [⟨some "hola", none, none⟩], some [("a", .str "1")],
        some [⟨2, none, none, none, none, none, none⟩],
        0, 0, 0⟩).2.flowsCache = some [⟨some "hola", none, none⟩] ∧
    (updateMessageStatus (.ok ()) 2 "Enviado"
      ⟨some [⟨some "hola", none, none⟩], some [("a", .str "1")],
        some [⟨2, none, none, none, none, none, none⟩],
        0, 0, 0⟩).2.promptsCache = some [("a", .str "1")] ∧
    (updateMessageStatus (.ok ()) 2 "Enviado"
      ⟨some [⟨some "hola", none, none⟩], some [("a", .str "1")],
        some [⟨2, none, none, none, none, none, none⟩],
        0, 0, 0⟩).2.lastFlowsFetch = 0 ∧
    (updateMessageStatus (.ok ()) 2 "Enviado"
      ⟨some [⟨some "hola", none, none⟩], some [("a", .str "1")],
        some [⟨2, none, none, none, none, none, none⟩],
        0, 0, 0⟩).2.lastPromptsFetch = 0 ∧
    getFlows 1 (.error ())
      (updateMessageStatus (.ok ()) 2 "Enviado"
        ⟨some [⟨some "hola", none, none⟩], some [("a", .str "1")],
          some [⟨2, none, none, none, none, none, none⟩], 0, 0, 0⟩).2 =
      ⟨[⟨some "hola", none, none⟩],
        (updateMessageStatus (.ok ()) 2 "Enviado"
          ⟨some [⟨some "hola", none, none⟩], some [("a", .str "1")],
            some [⟨2, none, none, none, none, none, none⟩], 0, 0, 0⟩).2,
        false⟩ := by
  have h := c3_update_targeted_invalidation
    ⟨some [⟨some "hola", none, none⟩], some [("a", .str "1")],
      some [⟨2, none, none, none, none, none, none⟩], 0, 0, 0⟩
    2 "Enviado" (.ok ()) [⟨some "hola", none, none⟩] 1 (.error ())
    rfl (by decide)
  exact ⟨h.1, h.2.1, by rw [h.1], by rw [h.1], by rw [h.1], by rw [h.1],
    h.2.2.2.2.2.2⟩

/-! ### Claim theorems: the flow matcher (C4) -/

theorem findFlowAnswerL_eq_find? (msg : List Char) (flows : List Flow) :
    findFlowAnswerL msg flows = flows.find? (flowMatches msg) := by
  induction flows with
  | nil => rfl
  | cons f rest ih =>
      cases h : flowMatches msg f <;>
        simp [findFlowAnswerL, List.find?_cons, h, ih]

/-- C4: the flow matcher is first-match-wins in flow-table order — it equals
`List.find?` of the per-flow keyword test, returns `none` exactly when no
flow's keyword list hits, and on the flows
`[{keywords:"hola"}, {keywords:"hola buenos dias"}]` with message
`"hola buenos dias"` it returns the FIRST flow. -/
theorem c4_first_match_wins :
    (∀ (msg : String) (flows : List Flow),
        findFlowAnswer msg flows =
          flows.find? (flowMatches (normalizeTextL msg.data))) ∧
    (∀ (msg : String) (flows : List Flow),
        findFlowAnswer msg flows = none ↔
          ∀ f ∈ flows, flowMatches (normalizeTextL msg.data) f = false) ∧
    findFlowAnswer "hola buenos dias"
        [⟨some "hola", none, none⟩, ⟨some "hola buenos dias", none, none⟩] =
      some ⟨some "hola", none, none⟩ := by
  refine ⟨fun msg flows => findFlowAnswerL_eq_find? _ _,
    fun msg flows => ?_, by decide⟩
  rw [findFlowAnswer, findFlowAnswerL_eq_find?, List.find?_eq_none]
  simp [Bool.not_eq_true]

/-! ### Helper lemmas: JS object get/set (C5, C7) -/

theorem objGet_cons (k' : String) (v' : JSVal) (m : Settings) (k2 : String) :
    objGet ((k', v') :: m) k2 = if k' = k2 then some v' else objGet m k2 := by
  by_cases h : k' = k2 <;> simp [objGet, List.find?_cons, h]

theorem objSet_cons_ne (pk : String) (pv : JSVal) (m : Settings) (k : String)
    (v : JSVal) (h : pk ≠ k) :
    objSet ((pk, pv) :: m) k v = (pk, pv) :: objSet m k v := by
  have hpk : (decide (pk = k)) = false := by simp [h]
  simp only [objSet, List.any_cons, hpk, Bool.false_or]
  by_cases hb : (m.any fun p => decide (p.1 = k)) = true
  · rw [if_pos hb, if_pos hb, List.map_cons, if_neg h]
  · rw [if_neg hb, if_neg hb, List.cons_append]

theorem objGet_map_set_ne (m : Settings) (k k2 : String) (v : JSVal)
    (h : k2 ≠ k) :
    objGet (m.map (fun p => if p.1 = k then (k, v) else p)) k2 =
      objGet m k2 := by
  induction m with
  | nil => rfl
  | cons p rest ih =>
      obtain ⟨pk, pv⟩ := p
      rw [List.map_cons]
      by_cases hp : pk = k
      · subst hp
        rw [if_pos rfl, objGet_cons, objGet_cons,
          if_neg (fun hh => h hh.symm), if_neg (fun hh => h hh.symm), ih]
      · rw [if_neg hp, objGet_cons, objGet_cons, ih]

theorem objGet_objSet (m : Settings) (k k2 : String) (v : JSVal) :
    objGet (objSet m k v) k2 = if k2 = k then some v else objGet m k2 := by
  induction m with
  | nil =>
      show objGet ([] ++ [(k, v)]) k2 = _
      rw [List.nil_append, objGet_cons]
      by_cases h : k2 = k
      · simp [h]
      · rw [if_neg (fun hh => h hh.symm), if_neg h]
  | cons p rest ih =>
      obtain ⟨pk, pv⟩ := p
      by_cases hp : pk = k
      · subst hp
        have hset : objSet ((pk, pv) :: rest) pk v =
            (pk, v) :: rest.map (fun p => if p.1 = pk then (pk, v) else p) := by
          simp [objSet, List.any_cons]
        rw [hset, objGet_cons]
        by_cases hk : k2 = pk
        · simp [hk]
        · rw [if_neg (fun hh => hk hh.symm), if_neg hk,
            objGet_map_set_ne rest pk k2 v hk, objGet_cons,
            if_neg (fun hh => hk hh.symm)]
      · rw [objSet_cons_ne pk pv rest k v hp, objGet_cons, objGet_cons, ih]
        by_cases h1 : pk = k2 <;> by_cases h2 : k2 = k
        · exact absurd (h1.trans h2) hp
        · simp [h1, h2, hp]
        · simp [h1, h2, hp]
        · simp [h1, h2, hp]

/-! ### Helper lemmas: prompt parsing (C5) -/

theorem promptRowAssign_eq (acc : Settings) (row : List String) :
    promptRowAssign acc row =
      match rowEntry row with
      | some kv => objSet acc kv.1 (.str kv.2)
      | none => acc := by
  simp only [promptRowAssign, rowEntry]
  cases row.get? 1 <;> cases row.get? 2
  · rfl
  · rfl
  · rfl
  · rename_i k v
    by_cases h : k = ""
    · simp [h]
    · by_cases h2 : v = "" <;> simp [h, h2]

theorem objGet_foldl_promptRows (k : String) (rows : List (List String)) :
    ∀ acc : Settings,
      objGet (rows.foldl promptRowAssign acc) k =
        match lastValueFor k rows with
        | some v => some (.str v)
        | none => objGet acc k := by
  induction rows with
  | nil => intro acc; rfl
  | cons row rest ih =>
      intro acc
      rw [List.foldl_cons, ih]
      cases hrest : lastValueFor k rest with
      | some v => simp [lastValueFor, hrest]
      | none =>
          simp only [lastValueFor, hrest]
          rw [promptRowAssign_eq]
          cases hre : rowEntry row with
          | none => simp
          | some kv =>
              simp only
              rw [objGet_objSet]
              by_cases hk : k = kv.1
              · simp [hk]
              · rw [if_neg hk, if_neg (fun hh => hk hh.symm)]

theorem objGet_promptSeed_ne (rows : List (List String)) (k : String)
    (hk : k ≠ "system_prompt") : objGet (promptSeed rows) k = none := by
  cases rows with
  | nil => rfl
  | cons r0 rest =>
      simp only [promptSeed]
      cases r0.get? 0 with
      | none => rfl
      | some v =>
          show objGet
            (if v = "" then [] else objSet [] "system_prompt" (.str v)) k =
            none
          by_cases hv : v = ""
          · simp [hv, objGet]
          · rw [if_neg hv]
            show objGet ([] ++ [("system_prompt", .str v)]) k = none
            rw [List.nil_append, objGet_cons,
              if_neg (fun hh => hk hh.symm)]
            rfl

/-! ### Claim theorems: prompt parsing (C5) -/

/-- C5, counterexample: with the single fetched row `["sys","k","v"]` the
parsed settings contain the entry `k ↦ "v"` — contributed by the FIRST row,
which the claim says never contributes a key/value entry: the `forEach` in
`getPrompts` runs over all rows, the first included. -/
theorem c5_counterexample :
    parsePrompts [["sys", "k", "v"]] =
      [("system_prompt", .str "sys"), ("k", .str "v")] ∧
    objGet (parsePrompts [["sys", "k", "v"]]) "k" = some (.str "v") := by
  constructor
  · decide
  · decide

/-- C5 (amended): the first fetched row's first cell (when present and
non-empty) seeds `system_prompt`, and EVERY row — the first included —
contributes `key = row[1]`, `value = row[2]` to the settings mapping when
both cells are present and non-empty, with later duplicate keys overwriting
earlier ones in source order: for any key other than `system_prompt` the
parsed value is the one contributed by the last row carrying that key.  The
concrete conjunct shows seeding and last-write-wins together. -/
theorem c5_prompt_rows (rows : List (List String)) (k : String)
    (hk : k ≠ "system_prompt") :
    objGet (parsePrompts rows) k = (lastValueFor k rows).map JSVal.str ∧
    parsePrompts [["sys"], ["", "a", "1"], ["x", "a", "2"]] =
      [("system_prompt", .str "sys"), ("a", .str "2")] := by
  refine ⟨?_, by decide⟩
  unfold parsePrompts
  rw [objGet_foldl_promptRows]
  cases h : lastValueFor k rows with
  | some v => rfl
  | none => simp [objGet_promptSeed_ne rows k hk]

/-- Witness for C5 at the concrete key `"k"` and rows `[["sys","k","v"]]`:
the hypothesis `"k" ≠ "system_prompt"` is discharged by `decide`. -/
theorem c5_prompt_rows_witness :
    objGet (parsePrompts [["sys", "k", "v"]]) "k" =
      (lastValueFor "k" [["sys", "k", "v"]]).map JSVal.str ∧
    parsePrompts [["sys"], ["", "a", "1"], ["x", "a", "2"]] =
      [("system_prompt", .str "sys"), ("a", .str "2")] :=
  c5_prompt_rows [["sys", "k", "v"]] "k" (by decide)

/-! ### Claim theorems: numeric coercion of settings (C7) -/

theorem objGet_coerceSettings (m : Settings) (k : String) :
    objGet (coerceSettings m) k = (objGet m k).map coerceVal := by
  induction m with
  | nil => rfl
  | cons p rest ih =>
      obtain ⟨pk, pv⟩ := p
      simp only [coerceSettings, List.map_cons] at ih ⊢
      rw [objGet_cons, objGet_cons, ih]
      by_cases h : pk = k <;> simp [h]

/-- C7: after the coercion pass of `loadSettings`, a setting at a key other
than `system_prompt` whose raw cell was the string `s` is numeric exactly
when `s` parses fully as a JavaScript number (and then carries that number),
and is otherwise left as the original string; concretely `"42"` becomes the
number 42, `"3.5"` becomes 7/2, and `"abc"` stays the string `"abc"`. -/
theorem c7_numeric_coercion (m : Settings) (k : String) (s : String)
    (_hk : k ≠ "system_prompt") (hv : objGet m k = some (.str s)) :
    objGet (coerceSettings m) k =
      some (match jsParseNumber s with
            | some q => JSVal.num q
            | none => JSVal.str s) ∧
    coerceVal (.str "42") = .num 42 ∧
    coerceVal (.str "3.5") = .num (mkRat 7 2) ∧
    coerceVal (.str "abc") = .str "abc" := by
  refine ⟨?_, by decide, by decide, by decide⟩
  rw [objGet_coerceSettings, hv]
  rfl

/-- Witness for C7 at the mapping `[("temperature", "0.7")]` and key
`"temperature"`. -/
theorem c7_numeric_coercion_witness :
    objGet (coerceSettings [("temperature", .str "0.7")]) "temperature" =
      some (match jsParseNumber "0.7" with
            | some q => JSVal.num q
            | none => JSVal.str "0.7") ∧
    coerceVal (.str "42") = .num 42 ∧
    coerceVal (.str "3.5") = .num (mkRat 7 2) ∧
    coerceVal (.str "abc") = .str "abc" :=
  c7_numeric_coercion [("temperature", .str "0.7")] "temperature" "0.7"
    (by decide) (by decide)

/-! ### Claim theorems: in-place mutation of the cached settings (C8) -/

/-- C8, counterexample: `getPrompts` stores the parsed mapping
`{system_prompt: "sys", temperature: "0.5"}` in the cache; a later
`loadSettings` (a cache-hit read followed by the in-place coercion loop)
changes the cached mapping's `temperature` entry from the string `"0.5"` to
the number 1/2 — with no intervening refresh, refuting the claim that no
later operation changes any entry of the stored mapping. -/
theorem c8_counterexample :
    (getPrompts 0 (.ok (some [["sys", "temperature", "0.5"]]))
        SheetState.init).state.promptsCache =
      some [("system_prompt", .str "sys"), ("temperature", .str "0.5")] ∧
    (loadSettings 0 (.error ())
        ⟨(getPrompts 0 (.ok (some [["sys", "temperature", "0.5"]]))
            SheetState.init).state, none⟩).sheet.promptsCache =
      some [("system_prompt", .str "sys"),
        ("temperature", .num (mkRat 1 2))] ∧
    (loadSettings 0 (.error ())
        ⟨(getPrompts 0 (.ok (some [["sys", "temperature", "0.5"]]))
            SheetState.init).state, none⟩).sheet.promptsCache ≠
      (getPrompts 0 (.ok (some [["sys", "temperature", "0.5"]]))
          SheetState.init).state.promptsCache := by
  refine ⟨by decide, by decide, by decide⟩

/-- C8 (amended): the settings mapping is built by `getPrompts` at refresh
time, and a cache-hit read by itself changes nothing; but `loadSettings`
performs its numeric-coercion pass IN PLACE on the object returned by
`getPrompts`, which on a hit or refresh is the cached object — so after a
`loadSettings` while the cache is fresh, the stored mapping has been replaced
by its coerced form (and the same coerced object becomes
`GroqService.settings`). -/
theorem c8_settings_mutation (now : Int) (fetch : FetchOutcome)
    (st : SysState) (c : Settings)
    (hc : st.sheet.promptsCache = some c)
    (hfresh : now < st.sheet.lastPromptsFetch + cacheDuration) :
    (loadSettings now fetch st).sheet.promptsCache =
      some (coerceSettings c) ∧
    (loadSettings now fetch st).groqSettings = some (coerceSettings c) ∧
    (getPrompts now fetch st.sheet).state = st.sheet := by
  have hget : getPrompts now fetch st.sheet = ⟨c, st.sheet, false⟩ := by
    simp only [getPrompts, hc]
    rw [if_pos (by omega)]
  refine ⟨?_, ?_, by rw [hget]⟩
  · simp only [loadSettings, hget]
    rw [if_pos hc]
  · simp only [loadSettings, hget]

/-- Witness for C8 at a concrete fresh state holding the raw mapping
`[("temperature", "0.5")]`. -/
theorem c8_settings_mutation_witness :
    (loadSettings 0 (.error ())
        ⟨⟨none, some [("temperature", .str "0.5")], none, 0, 0, 0⟩,
          none⟩).sheet.promptsCache =
      some (coerceSettings [("temperature", .str "0.5")]) ∧
    (loadSettings 0 (.error ())
        ⟨⟨none, some [("temperature", .str "0.5")], none, 0, 0, 0⟩,
          none⟩).groqSettings =
      some (coerceSettings [("temperature", .str "0.5")]) ∧
    (getPrompts 0 (.error ())
        ⟨none, some [("temperature", .str "0.5")], none, 0, 0, 0⟩).state =
      ⟨none, some [("temperature", .str "0.5")], none, 0, 0, 0⟩ :=
  c8_settings_mutation 0 (.error ())
    ⟨⟨none, some [("temperature", .str "0.5")], none, 0, 0, 0⟩, none⟩
    [("temperature", .str "0.5")] rfl (by decide)

/-! ### Claim theorems: the AI-response path (C10) -/

/-- C10 (code evaluation at the failing behaviour): `getResponse` loads the
settings when they are not yet loaded, assembles the message list — and then
returns the empty string from `const aiResponse = ''` (src/ai-chat.js line
66): its text result is `""` for every input and is independent of the
completion endpoint, which is never invoked.  This contradicts the claim
(and the source's own documentation) that the external completion service's
`generate(messages)` is invoked and its text returned. -/
theorem c10_no_completion_call (now : Int) (fetch : FetchOutcome)
    (g1 g2 : List ChatMessage → String) (userInput : String)
    (phone : Option String) (ctx : List ChatMessage) (st : SysState) :
    (getResponse now fetch g1 userInput phone ctx st).1 = "" ∧
    getResponse now fetch g1 userInput phone ctx st =
      getResponse now fetch g2 userInput phone ctx st :=
  ⟨rfl, rfl⟩

end Chatbot
